import Mathlib

/-!
Shallow embedding of the address-abstraction and status-mapping layer of
src/src/inc/msquic_winkernel.h.

The C type QUIC_ADDR is SOCKADDR_INET, a union of SOCKADDR_IN (IPv4) and
SOCKADDR_IN6 (IPv6).  In that union the 16-bit family tag and the 16-bit
network-order port occupy the same bytes in both views (si_family,
Ipv4.sin_port / Ipv6.sin6_port), while the IPv4 payload (offset 4..8), the
IPv6 payload (offset 8..24) and the IPv6 scope id (offset 24..28) occupy
pairwise disjoint byte ranges.  The record below therefore keeps one field
for the shared family tag, one for the shared raw port bits, and separate
fields for the three disjoint regions.  Machine integers are modelled as
Nat with explicit truncation modulo 2^w where the C code can wrap.
-/

namespace MsQuic

/-- Windows ADDRESS_FAMILY constant AF_UNSPEC (from the host headers). -/
def AF_UNSPEC : Nat := 0

/-- Windows ADDRESS_FAMILY constant AF_INET (from the host headers). -/
def AF_INET : Nat := 2

/-- Windows ADDRESS_FAMILY constant AF_INET6 (from the host headers). -/
def AF_INET6 : Nat := 23

/-- QUIC_ADDR = SOCKADDR_INET: the union of SOCKADDR_IN and SOCKADDR_IN6.
si_family is the shared 16-bit family tag; sin_port holds the shared raw
network-order 16-bit port (Ipv4.sin_port and Ipv6.sin6_port overlay);
sin_addr is the 4-byte IPv4 payload; sin6_addr the 16-byte IPv6 payload;
sin6_scope_id the 32-bit IPv6 scope/zone id.  Each byte field holds values
0..255 in the C layout; the operations below never depend on that bound
except where stated as a hypothesis. -/
structure QUIC_ADDR where
  si_family : Nat
  sin_port : Nat
  sin_addr : Fin 4 → Nat
  sin6_addr : Fin 16 → Nat
  sin6_scope_id : Nat

/-- QuicAddrIsValid: family is one of AF_UNSPEC, AF_INET, AF_INET6. -/
def QuicAddrIsValid (a : QUIC_ADDR) : Bool :=
  decide (a.si_family = AF_UNSPEC ∨ a.si_family = AF_INET ∨ a.si_family = AF_INET6)

/-- QuicAddrCompareIp: memcmp of the IPv4 payloads when Addr1 has family
AF_INET, otherwise memcmp of the IPv6 payloads. -/
def QuicAddrCompareIp (a1 a2 : QUIC_ADDR) : Bool :=
  if a1.si_family = AF_INET then
    decide (∀ i : Fin 4, a1.sin_addr i = a2.sin_addr i)
  else
    decide (∀ i : Fin 16, a1.sin6_addr i = a2.sin6_addr i)

/-- QuicAddrCompare: false when the family tags or the raw port bits
differ, otherwise QuicAddrCompareIp. -/
def QuicAddrCompare (a1 a2 : QUIC_ADDR) : Bool :=
  if a1.si_family ≠ a2.si_family ∨ a1.sin_port ≠ a2.sin_port then
    false
  else
    QuicAddrCompareIp a1 a2

/-- QuicAddrIsWildCard: true for AF_UNSPEC; for AF_INET memcmp of the
4-byte IPv4 payload against zero; otherwise memcmp of the 16-byte IPv6
payload against zero. -/
def QuicAddrIsWildCard (a : QUIC_ADDR) : Bool :=
  if a.si_family = AF_UNSPEC then
    true
  else if a.si_family = AF_INET then
    decide (∀ i : Fin 4, a.sin_addr i = 0)
  else
    decide (∀ i : Fin 16, a.sin6_addr i = 0)

/-- QuicNetByteSwapShort (the non-RtlUshortByteSwap branch):
(uint16_t)((((x) & 0x00ff) << 8) | (((x) & 0xff00) >> 8)); the final cast
to uint16_t is the modulo 2^16 truncation. -/
def QuicNetByteSwapShort (x : Nat) : Nat :=
  (((x &&& 0x00ff) <<< 8) ||| ((x &&& 0xff00) >>> 8)) % 65536

/-- QuicAddrGetFamily: read the family tag. -/
def QuicAddrGetFamily (a : QUIC_ADDR) : Nat :=
  a.si_family

/-- QuicAddrSetFamily: write the family tag. -/
def QuicAddrSetFamily (a : QUIC_ADDR) (family : Nat) : QUIC_ADDR :=
  { a with si_family := family }

/-- QuicAddrGetPort: byte-swap of the stored raw port bits (returns host
byte order). -/
def QuicAddrGetPort (a : QUIC_ADDR) : Nat :=
  QuicNetByteSwapShort a.sin_port

/-- QuicAddrSetPort: store the byte-swap of the host-order port. -/
def QuicAddrSetPort (a : QUIC_ADDR) (port : Nat) : QUIC_ADDR :=
  { a with sin_port := QuicNetByteSwapShort port }

/-- QuicAddrIsBoundExplicitly: Ipv6.sin6_scope_id == 0, read regardless of
the family tag (always readable in the SOCKADDR_INET union). -/
def QuicAddrIsBoundExplicitly (a : QUIC_ADDR) : Bool :=
  decide (a.sin6_scope_id = 0)

/-- QuicAddrSetToLoopback: for AF_INET assigns s_b1 := 127 and s_b4 := 1
(bytes 0 and 3 of the IPv4 payload); otherwise assigns byte 15 of the IPv6
payload := 1.  No other byte is written. -/
def QuicAddrSetToLoopback (a : QUIC_ADDR) : QUIC_ADDR :=
  if a.si_family = AF_INET then
    { a with sin_addr := fun i => if i = 0 then 127 else if i = 3 then 1 else a.sin_addr i }
  else
    { a with sin6_addr := fun i => if i = 15 then 1 else a.sin6_addr i }

/-- The UPDATE_HASH macro: Hash = ((Hash << 5) - Hash) + (byte) on
uint32_t.  The shift wraps modulo 2^32; the uint32 wrap-around subtraction
is modelled by adding 2^32 before the Nat subtraction (exact because the C
operand Hash is a uint32_t, i.e. taken modulo 2^32). -/
def UPDATE_HASH (h b : Nat) : Nat :=
  ((h <<< 5) % 4294967296 + 4294967296 - h % 4294967296 + b) % 4294967296

/-- QuicAddrHash: seed 5387, then UPDATE_HASH with sin_port & 0xFF, then
sin_port >> 8, then each payload byte in index order (the 4 IPv4 bytes
when the family is AF_INET, the 16 IPv6 bytes otherwise); the C for loop
over byte indices is rendered as a fold over the index list. -/
def QuicAddrHash (a : QUIC_ADDR) : Nat :=
  if a.si_family = AF_INET then
    (List.finRange 4).foldl (fun acc i => UPDATE_HASH acc (a.sin_addr i))
      (UPDATE_HASH (UPDATE_HASH 5387 (a.sin_port &&& 0xFF)) (a.sin_port >>> 8))
  else
    (List.finRange 16).foldl (fun acc i => UPDATE_HASH acc (a.sin6_addr i))
      (UPDATE_HASH (UPDATE_HASH 5387 (a.sin_port &&& 0xFF)) (a.sin_port >>> 8))

/-- Modelled from the spec: an NTSTATUS value is a 32-bit signed integer
(spec section 3, Status code); the raw 32-bit pattern c (a Nat below 2^32)
is read as signed two-complement.  The NTSTATUS type itself comes from the
host headers, which are not under src/. -/
def ntSigned (c : Nat) : Int :=
  if c < 2147483648 then (c : Int) else (c : Int) - 4294967296

/-- Modelled from the spec: the host macro NT_SUCCESS (not under src/)
classifies a status as success exactly when its signed 32-bit value is
non-negative (spec sections 3 and 4.7: success/failure follows the host
native sign convention). -/
def NT_SUCCESS (c : Nat) : Bool :=
  decide (0 ≤ ntSigned c)

/-- QUIC_FAILED(X) = (!NT_SUCCESS(X)). -/
def QUIC_FAILED (c : Nat) : Bool :=
  !(NT_SUCCESS c)

/-- QUIC_SUCCEEDED(X) = NT_SUCCESS(X). -/
def QUIC_SUCCEEDED (c : Nat) : Bool :=
  NT_SUCCESS c

/-- Modelled from the spec: host ntstatus.h value STATUS_SUCCESS (the
native success code; not under src/). -/
def STATUS_SUCCESS : Nat := 0x00000000

/-- Modelled from the spec: host ntstatus.h value STATUS_PENDING (a
success-class informational code; not under src/). -/
def STATUS_PENDING : Nat := 0x00000103

/-- Modelled from the spec: host ntstatus.h value STATUS_REPARSE (a
success-class informational code; not under src/). -/
def STATUS_REPARSE : Nat := 0x00000104

/-- Modelled from the spec: host ntstatus.h value STATUS_NO_MEMORY (error
severity; not under src/). -/
def STATUS_NO_MEMORY : Nat := 0xC0000017

/-- Modelled from the spec: host ntstatus.h value STATUS_INVALID_PARAMETER
(error severity; not under src/). -/
def STATUS_INVALID_PARAMETER : Nat := 0xC000000D

/-- Modelled from the spec: host ntstatus.h value
STATUS_INVALID_DEVICE_STATE (error severity; not under src/). -/
def STATUS_INVALID_DEVICE_STATE : Nat := 0xC0000184

/-- Modelled from the spec: host ntstatus.h value STATUS_NOT_SUPPORTED
(error severity; not under src/). -/
def STATUS_NOT_SUPPORTED : Nat := 0xC00000BB

/-- Modelled from the spec: host ntstatus.h value STATUS_NOT_FOUND (error
severity; not under src/). -/
def STATUS_NOT_FOUND : Nat := 0xC0000225

/-- Modelled from the spec: host ntstatus.h value STATUS_BUFFER_TOO_SMALL
(error severity; not under src/). -/
def STATUS_BUFFER_TOO_SMALL : Nat := 0xC0000023

/-- Modelled from the spec: host ntstatus.h value STATUS_CANCELLED (error
severity; not under src/). -/
def STATUS_CANCELLED : Nat := 0xC0000120

/-- Modelled from the spec: host ntstatus.h value
STATUS_ADDRESS_ALREADY_EXISTS (error severity; not under src/). -/
def STATUS_ADDRESS_ALREADY_EXISTS : Nat := 0xC000020A

/-- Modelled from the spec: host ntstatus.h value
STATUS_CONNECTION_DISCONNECTED (error severity; not under src/). -/
def STATUS_CONNECTION_DISCONNECTED : Nat := 0xC000020C

/-- Modelled from the spec: host ntstatus.h value STATUS_CONNECTION_ABORTED
(error severity; not under src/). -/
def STATUS_CONNECTION_ABORTED : Nat := 0xC0000241

/-- Modelled from the spec: host ntstatus.h value STATUS_HOST_UNREACHABLE
(error severity; not under src/). -/
def STATUS_HOST_UNREACHABLE : Nat := 0xC000023D

/-- Modelled from the spec: host ntstatus.h value STATUS_INTERNAL_ERROR
(error severity; not under src/). -/
def STATUS_INTERNAL_ERROR : Nat := 0xC00000E5

/-- Modelled from the spec: host ntstatus.h value STATUS_CONNECTION_REFUSED
(error severity; not under src/). -/
def STATUS_CONNECTION_REFUSED : Nat := 0xC0000236

/-- Modelled from the spec: host ntstatus.h value STATUS_CONNECTION_INVALID
(error severity; not under src/). -/
def STATUS_CONNECTION_INVALID : Nat := 0xC000023A

/-- From src: STATUS_QUIC_HANDSHAKE_FAILURE = ((NTSTATUS)0xC0240000L). -/
def STATUS_QUIC_HANDSHAKE_FAILURE : Nat := 0xC0240000

/-- From src: STATUS_QUIC_VER_NEG_FAILURE = ((NTSTATUS)0xC0240001L). -/
def STATUS_QUIC_VER_NEG_FAILURE : Nat := 0xC0240001

/-- From src: STATUS_QUIC_USER_CANCELED = ((NTSTATUS)0xC0240002L). -/
def STATUS_QUIC_USER_CANCELED : Nat := 0xC0240002

/-- QUIC_STATUS_SUCCESS = STATUS_SUCCESS. -/
def QUIC_STATUS_SUCCESS : Nat := STATUS_SUCCESS

/-- QUIC_STATUS_PENDING = STATUS_PENDING. -/
def QUIC_STATUS_PENDING : Nat := STATUS_PENDING

/-- QUIC_STATUS_CONTINUE = STATUS_REPARSE. -/
def QUIC_STATUS_CONTINUE : Nat := STATUS_REPARSE

/-- QUIC_STATUS_OUT_OF_MEMORY = STATUS_NO_MEMORY. -/
def QUIC_STATUS_OUT_OF_MEMORY : Nat := STATUS_NO_MEMORY

/-- QUIC_STATUS_INVALID_PARAMETER = STATUS_INVALID_PARAMETER. -/
def QUIC_STATUS_INVALID_PARAMETER : Nat := STATUS_INVALID_PARAMETER

/-- QUIC_STATUS_INVALID_STATE = STATUS_INVALID_DEVICE_STATE. -/
def QUIC_STATUS_INVALID_STATE : Nat := STATUS_INVALID_DEVICE_STATE

/-- QUIC_STATUS_NOT_SUPPORTED = STATUS_NOT_SUPPORTED. -/
def QUIC_STATUS_NOT_SUPPORTED : Nat := STATUS_NOT_SUPPORTED

/-- QUIC_STATUS_NOT_FOUND = STATUS_NOT_FOUND. -/
def QUIC_STATUS_NOT_FOUND : Nat := STATUS_NOT_FOUND

/-- QUIC_STATUS_BUFFER_TOO_SMALL = STATUS_BUFFER_TOO_SMALL. -/
def QUIC_STATUS_BUFFER_TOO_SMALL : Nat := STATUS_BUFFER_TOO_SMALL

/-- QUIC_STATUS_HANDSHAKE_FAILURE = STATUS_QUIC_HANDSHAKE_FAILURE. -/
def QUIC_STATUS_HANDSHAKE_FAILURE : Nat := STATUS_QUIC_HANDSHAKE_FAILURE

/-- QUIC_STATUS_ABORTED = STATUS_CANCELLED. -/
def QUIC_STATUS_ABORTED : Nat := STATUS_CANCELLED

/-- QUIC_STATUS_ADDRESS_IN_USE = STATUS_ADDRESS_ALREADY_EXISTS. -/
def QUIC_STATUS_ADDRESS_IN_USE : Nat := STATUS_ADDRESS_ALREADY_EXISTS

/-- QUIC_STATUS_CONNECTION_TIMEOUT = STATUS_CONNECTION_DISCONNECTED. -/
def QUIC_STATUS_CONNECTION_TIMEOUT : Nat := STATUS_CONNECTION_DISCONNECTED

/-- QUIC_STATUS_CONNECTION_IDLE = STATUS_CONNECTION_ABORTED. -/
def QUIC_STATUS_CONNECTION_IDLE : Nat := STATUS_CONNECTION_ABORTED

/-- QUIC_STATUS_UNREACHABLE = STATUS_HOST_UNREACHABLE. -/
def QUIC_STATUS_UNREACHABLE : Nat := STATUS_HOST_UNREACHABLE

/-- QUIC_STATUS_INTERNAL_ERROR = STATUS_INTERNAL_ERROR. -/
def QUIC_STATUS_INTERNAL_ERROR : Nat := STATUS_INTERNAL_ERROR

/-- QUIC_STATUS_SERVER_BUSY = STATUS_CONNECTION_REFUSED. -/
def QUIC_STATUS_SERVER_BUSY : Nat := STATUS_CONNECTION_REFUSED

/-- QUIC_STATUS_PROTOCOL_ERROR = STATUS_CONNECTION_INVALID. -/
def QUIC_STATUS_PROTOCOL_ERROR : Nat := STATUS_CONNECTION_INVALID

/-- QUIC_STATUS_VER_NEG_ERROR = STATUS_QUIC_VER_NEG_FAILURE. -/
def QUIC_STATUS_VER_NEG_ERROR : Nat := STATUS_QUIC_VER_NEG_FAILURE

/-- QUIC_STATUS_USER_CANCELED = STATUS_QUIC_USER_CANCELED. -/
def QUIC_STATUS_USER_CANCELED : Nat := STATUS_QUIC_USER_CANCELED

/-- Modelled from the spec (section 4.6), for comparison with QuicAddrHash:
one step of the reference recurrence h = h*31 + byte on 32 bits. -/
def hashStepSpec (h b : Nat) : Nat :=
  (h * 31 + b) % 4294967296

/-- Modelled from the spec (section 4.6), for comparison with QuicAddrHash:
seed 5387, fold in the low byte of the raw network-order port, then its
high byte, then each address byte in order (4 bytes for IPv4, 16
otherwise), with hashStepSpec at every byte. -/
def QuicAddrHashSpec (a : QUIC_ADDR) : Nat :=
  (if a.si_family = AF_INET then
    [a.sin_port % 256, a.sin_port / 256] ++ (List.finRange 4).map a.sin_addr
  else
    [a.sin_port % 256, a.sin_port / 256] ++ (List.finRange 16).map a.sin6_addr).foldl
    hashStepSpec 5387

/-- Sample IPv4 address 192.168.1.1 with raw port bits 0xBB01 (network
byte order for host-order port 443 on a little-endian host). -/
def sampleV4 : QUIC_ADDR :=
  { si_family := AF_INET
    sin_port := 0xBB01
    sin_addr := fun i => if i = 0 then 192 else if i = 1 then 168 else 1
    sin6_addr := fun _ => 0
    sin6_scope_id := 0 }

/-- Same as sampleV4 except for the (irrelevant for IPv4) IPv6 payload. -/
def sampleV4var : QUIC_ADDR :=
  { si_family := AF_INET
    sin_port := 0xBB01
    sin_addr := fun i => if i = 0 then 192 else if i = 1 then 168 else 1
    sin6_addr := fun _ => 7
    sin6_scope_id := 9 }

/-- Same as sampleV4 except for the raw port bits. -/
def sampleV4port : QUIC_ADDR :=
  { si_family := AF_INET
    sin_port := 0xFB20
    sin_addr := fun i => if i = 0 then 192 else if i = 1 then 168 else 1
    sin6_addr := fun _ => 0
    sin6_scope_id := 0 }

/-- Sample IPv6 wildcard address with raw port bits 0xBB01. -/
def sampleV6 : QUIC_ADDR :=
  { si_family := AF_INET6
    sin_port := 0xBB01
    sin_addr := fun _ => 0
    sin6_addr := fun _ => 0
    sin6_scope_id := 0 }

/-- An address carrying a family tag (99) that is none of AF_UNSPEC,
AF_INET, AF_INET6, with all-zero IPv6 payload. -/
def invalidFamAddr : QUIC_ADDR :=
  { si_family := 99
    sin_port := 0
    sin_addr := fun _ => 1
    sin6_addr := fun _ => 0
    sin6_scope_id := 0 }

/-- An IPv4 address whose payload bytes are all 5 (nonzero at the bytes
QuicAddrSetToLoopback does not write). -/
def fives4 : QUIC_ADDR :=
  { si_family := AF_INET
    sin_port := 0
    sin_addr := fun _ => 5
    sin6_addr := fun _ => 5
    sin6_scope_id := 0 }

theorem and_255_eq_mod (x : Nat) : x &&& 255 = x % 256 := by
  have h := Nat.and_pow_two_sub_one_eq_mod x 8
  norm_num at h
  exact h

theorem testBit_div256_mod (x i : Nat) :
    (x / 256 % 256).testBit i = (decide (i < 8) && x.testBit (8 + i)) := by
  rw [show x / 256 = x >>> 8 by simp [Nat.shiftRight_eq_div_pow]]
  rw [show (256 : Nat) = 2 ^ 8 by norm_num]
  rw [Nat.testBit_mod_two_pow, Nat.testBit_shiftRight]

theorem and_65280_eq (x : Nat) : x &&& 65280 = x / 256 % 256 * 256 := by
  apply Nat.eq_of_testBit_eq
  intro i
  rw [Nat.testBit_and]
  rw [show (65280 : Nat) = 2 ^ 8 * (2 ^ 8 - 1) by norm_num]
  rw [Nat.testBit_mul_pow_two, Nat.testBit_two_pow_sub_one]
  rw [show x / 256 % 256 * 256 = 2 ^ 8 * (x / 256 % 256) by ring]
  rw [Nat.testBit_mul_pow_two, testBit_div256_mod]
  by_cases h8 : 8 ≤ i
  · rw [show 8 + (i - 8) = i by omega]
    simp [h8, Bool.and_comm, Bool.and_left_comm]
  · simp [h8, ge_iff_le]

theorem byteSwapShort_formula (x : Nat) (h : x < 65536) :
    QuicNetByteSwapShort x = x % 256 * 256 + x / 256 := by
  unfold QuicNetByteSwapShort
  rw [show (0x00ff : Nat) = 255 by norm_num, show (0xff00 : Nat) = 65280 by norm_num]
  rw [and_255_eq_mod, and_65280_eq]
  rw [Nat.shiftLeft_eq, Nat.shiftRight_eq_div_pow]
  have hdiv : x / 256 < 256 := by omega
  rw [Nat.mod_eq_of_lt hdiv]
  rw [show x / 256 * 256 / 2 ^ 8 = x / 256 by norm_num [Nat.mul_div_cancel]]
  rw [show x % 256 * 2 ^ 8 = 2 ^ 8 * (x % 256) by ring]
  rw [← Nat.mul_add_lt_is_or (hdiv.trans_le (by norm_num)) (x % 256)]
  have hm : x % 256 < 256 := Nat.mod_lt x (by norm_num)
  rw [Nat.mod_eq_of_lt (by omega)]
  ring

theorem byteSwapShort_lt (x : Nat) : QuicNetByteSwapShort x < 65536 := by
  unfold QuicNetByteSwapShort
  exact Nat.mod_lt _ (by norm_num)

theorem UPDATE_HASH_eq (h b : Nat) (hh : h < 4294967296) :
    UPDATE_HASH h b = (h * 31 + b) % 4294967296 := by
  unfold UPDATE_HASH
  rw [Nat.shiftLeft_eq, Nat.mod_eq_of_lt hh]
  rw [show (2 : Nat) ^ 5 = 32 by norm_num]
  omega

theorem UPDATE_HASH_lt (h b : Nat) : UPDATE_HASH h b < 4294967296 := by
  unfold UPDATE_HASH
  exact Nat.mod_lt _ (by norm_num)

theorem foldl_UPDATE_eq_fn {α : Type} (l : List α) (f : α → Nat) (h : Nat)
    (hh : h < 4294967296) :
    l.foldl (fun acc i => UPDATE_HASH acc (f i)) h =
      l.foldl (fun acc i => hashStepSpec acc (f i)) h := by
  induction l generalizing h with
  | nil => rfl
  | cons b t ih =>
    simp only [List.foldl_cons]
    rw [UPDATE_HASH_eq _ _ hh]
    exact ih _ (Nat.mod_lt _ (by norm_num))

/-- C8: for every address, QuicAddrHash equals the reference computation of
the spec: seed 5387, fold in the low byte then the high byte of the raw
network-order port, then each address byte in order (4 bytes when the
family is IPv4, 16 otherwise), with h = h*31 + byte modulo 2^32 at every
step. -/
theorem quicAddrHash_eq_spec (a : QUIC_ADDR) : QuicAddrHash a = QuicAddrHashSpec a := by
  unfold QuicAddrHash QuicAddrHashSpec
  have hlo : a.sin_port &&& 0xFF = a.sin_port % 256 := and_255_eq_mod a.sin_port
  have hhi : a.sin_port >>> 8 = a.sin_port / 256 := by
    rw [Nat.shiftRight_eq_div_pow]
  have hinit : UPDATE_HASH (UPDATE_HASH 5387 (a.sin_port % 256)) (a.sin_port / 256) =
      hashStepSpec (hashStepSpec 5387 (a.sin_port % 256)) (a.sin_port / 256) := by
    rw [UPDATE_HASH_eq 5387 _ (by norm_num), UPDATE_HASH_eq _ _ (Nat.mod_lt _ (by norm_num))]
    rfl
  by_cases hf : a.si_family = AF_INET
  · rw [if_pos hf, if_pos hf, List.foldl_append, List.foldl_map]
    simp only [List.foldl_cons, List.foldl_nil]
    rw [hlo, hhi, hinit]
    exact foldl_UPDATE_eq_fn _ _ _ (Nat.mod_lt _ (by norm_num))
  · rw [if_neg hf, if_neg hf, List.foldl_append, List.foldl_map]
    simp only [List.foldl_cons, List.foldl_nil]
    rw [hlo, hhi, hinit]
    exact foldl_UPDATE_eq_fn _ _ _ (Nat.mod_lt _ (by norm_num))

theorem compare_true_fields {a b : QUIC_ADDR} (h : QuicAddrCompare a b = true) :
    a.si_family = b.si_family ∧ a.sin_port = b.sin_port ∧
      (a.si_family = AF_INET → a.sin_addr = b.sin_addr) ∧
      (a.si_family ≠ AF_INET → a.sin6_addr = b.sin6_addr) := by
  unfold QuicAddrCompare at h
  by_cases hc : a.si_family ≠ b.si_family ∨ a.sin_port ≠ b.sin_port
  · rw [if_pos hc] at h
    exact absurd h (by simp)
  · rw [if_neg hc] at h
    push_neg at hc
    obtain ⟨hf, hp⟩ := hc
    unfold QuicAddrCompareIp at h
    refine ⟨hf, hp, ?_, ?_⟩
    · intro hfam
      rw [if_pos hfam] at h
      rw [decide_eq_true_eq] at h
      exact funext h
    · intro hfam
      rw [if_neg hfam] at h
      rw [decide_eq_true_eq] at h
      exact funext h

/-- C1: for all addresses a and b, if QuicAddrCompare a b returns true
then QuicAddrHash a equals QuicAddrHash b. -/
theorem compare_implies_hash_eq (a b : QUIC_ADDR) (h : QuicAddrCompare a b = true) :
    QuicAddrHash a = QuicAddrHash b := by
  obtain ⟨hf, hp, h4, h6⟩ := compare_true_fields h
  unfold QuicAddrHash
  by_cases hfam : a.si_family = AF_INET
  · rw [if_pos hfam, if_pos (hf.symm.trans hfam), hp, h4 hfam]
  · rw [if_neg hfam, if_neg (fun hb => hfam (hf.trans hb)), hp, h6 hfam]

/-- C1 witness: two concrete IPv4 addresses that differ only in the fields
QuicAddrCompare ignores for IPv4 compare equal and hash equal. -/
theorem compare_implies_hash_eq_witness :
    QuicAddrCompare sampleV4 sampleV4var = true ∧
    QuicAddrHash sampleV4 = QuicAddrHash sampleV4var :=
  ⟨by decide, compare_implies_hash_eq sampleV4 sampleV4var (by decide)⟩

/-- C2: for every address and every 16-bit host-order port p, QuicAddrGetPort
after QuicAddrSetPort returns p, and the common byte-swap routine
QuicNetByteSwapShort is the permutation exchanging the two bytes of a
16-bit word. -/
theorem getPort_setPort_roundtrip (a : QUIC_ADDR) (p : Nat) (hp : p < 65536) :
    QuicAddrGetPort (QuicAddrSetPort a p) = p ∧
    QuicNetByteSwapShort p = p % 256 * 256 + p / 256 := by
  refine ⟨?_, byteSwapShort_formula p hp⟩
  show QuicNetByteSwapShort (QuicNetByteSwapShort p) = p
  rw [byteSwapShort_formula p hp]
  rw [byteSwapShort_formula _ (by omega)]
  omega

/-- C2 witness: round-trip at the sample IPv4 address and port 443. -/
theorem getPort_setPort_roundtrip_witness :
    443 < 65536 ∧
    (QuicAddrGetPort (QuicAddrSetPort sampleV4 443) = 443 ∧
      QuicNetByteSwapShort 443 = 443 % 256 * 256 + 443 / 256) :=
  ⟨by norm_num, getPort_setPort_roundtrip sampleV4 443 (by norm_num)⟩

/-- C3 counterexample: on an IPv4 address whose payload bytes are all 5,
QuicAddrSetToLoopback leaves byte 1 equal to 5, so the resulting four
bytes are not 127.0.0.1; the function does not produce the loopback bytes
regardless of the prior payload. -/
theorem setToLoopback_cex :
    fives4.si_family = AF_INET ∧
    (QuicAddrSetToLoopback fives4).sin_addr 1 = 5 ∧
    ¬ ((QuicAddrSetToLoopback fives4).sin_addr 0 = 127 ∧
       (QuicAddrSetToLoopback fives4).sin_addr 1 = 0 ∧
       (QuicAddrSetToLoopback fives4).sin_addr 2 = 0 ∧
       (QuicAddrSetToLoopback fives4).sin_addr 3 = 1) := by
  decide

/-- C3 amended: for an IPv4-family address QuicAddrSetToLoopback writes
byte 0 := 127 and byte 3 := 1 and leaves bytes 1 and 2 unchanged, so the
payload equals 127.0.0.1 exactly when bytes 1 and 2 were already zero; for
any other family it writes byte 15 := 1 and leaves bytes 0..14 unchanged,
so the payload equals ::1 exactly when bytes 0..14 were already zero. -/
theorem setToLoopback_amended (a : QUIC_ADDR) :
    (a.si_family = AF_INET →
      ((QuicAddrSetToLoopback a).sin_addr 0 = 127 ∧
       (QuicAddrSetToLoopback a).sin_addr 1 = a.sin_addr 1 ∧
       (QuicAddrSetToLoopback a).sin_addr 2 = a.sin_addr 2 ∧
       (QuicAddrSetToLoopback a).sin_addr 3 = 1)) ∧
    (a.si_family = AF_INET → a.sin_addr 1 = 0 → a.sin_addr 2 = 0 →
      ((QuicAddrSetToLoopback a).sin_addr 0 = 127 ∧
       (QuicAddrSetToLoopback a).sin_addr 1 = 0 ∧
       (QuicAddrSetToLoopback a).sin_addr 2 = 0 ∧
       (QuicAddrSetToLoopback a).sin_addr 3 = 1)) ∧
    (a.si_family ≠ AF_INET →
      ((QuicAddrSetToLoopback a).sin6_addr 15 = 1 ∧
       ∀ i : Fin 16, i ≠ 15 → (QuicAddrSetToLoopback a).sin6_addr i = a.sin6_addr i)) ∧
    (a.si_family ≠ AF_INET → (∀ i : Fin 16, i ≠ 15 → a.sin6_addr i = 0) →
      ((QuicAddrSetToLoopback a).sin6_addr 15 = 1 ∧
       ∀ i : Fin 16, i ≠ 15 → (QuicAddrSetToLoopback a).sin6_addr i = 0)) := by
  have h4 : a.si_family = AF_INET →
      ((QuicAddrSetToLoopback a).sin_addr 0 = 127 ∧
       (QuicAddrSetToLoopback a).sin_addr 1 = a.sin_addr 1 ∧
       (QuicAddrSetToLoopback a).sin_addr 2 = a.sin_addr 2 ∧
       (QuicAddrSetToLoopback a).sin_addr 3 = 1) := by
    intro hf
    unfold QuicAddrSetToLoopback
    rw [if_pos hf]
    refine ⟨rfl, ?_, ?_, rfl⟩ <;> simp
  have h6 : a.si_family ≠ AF_INET →
      ((QuicAddrSetToLoopback a).sin6_addr 15 = 1 ∧
       ∀ i : Fin 16, i ≠ 15 → (QuicAddrSetToLoopback a).sin6_addr i = a.sin6_addr i) := by
    intro hf
    unfold QuicAddrSetToLoopback
    rw [if_neg hf]
    refine ⟨rfl, ?_⟩
    intro i hi
    simp [hi]
  refine ⟨h4, ?_, h6, ?_⟩
  · intro hf h1 h2
    obtain ⟨g0, g1, g2, g3⟩ := h4 hf
    exact ⟨g0, h1 ▸ g1, h2 ▸ g2, g3⟩
  · intro hf hz
    obtain ⟨g15, grest⟩ := h6 hf
    exact ⟨g15, fun i hi => (grest i hi).trans (hz i hi)⟩

/-- C3 amended witness: concrete IPv4 and IPv6 addresses. -/
theorem setToLoopback_amended_witness :
    fives4.si_family = AF_INET ∧
    (QuicAddrSetToLoopback fives4).sin_addr 0 = 127 ∧
    sampleV6.si_family ≠ AF_INET ∧
    (QuicAddrSetToLoopback sampleV6).sin6_addr 15 = 1 :=
  ⟨rfl, ((setToLoopback_amended fives4).1 rfl).1, by decide,
    ((setToLoopback_amended sampleV6).2.2.2 (by decide) (fun i hi => rfl)).1⟩

/-- C9: QuicAddrSetToLoopback leaves the family tag, the raw port bits and
the IPv6 scope id unchanged; only payload bytes are written. -/
theorem setToLoopback_frame (a : QUIC_ADDR) :
    (QuicAddrSetToLoopback a).si_family = a.si_family ∧
    (QuicAddrSetToLoopback a).sin_port = a.sin_port ∧
    (QuicAddrSetToLoopback a).sin6_scope_id = a.sin6_scope_id := by
  unfold QuicAddrSetToLoopback
  by_cases hf : a.si_family = AF_INET
  · rw [if_pos hf]; exact ⟨rfl, rfl, rfl⟩
  · rw [if_neg hf]; exact ⟨rfl, rfl, rfl⟩

/-- C5: QuicAddrCompare returns false whenever the family tags or the raw
port bits differ, for arbitrary payload bytes; when both agree its result
is the byte-for-byte comparison of the IPv4 payload if the family is
AF_INET and of the IPv6 payload otherwise, with no normalization. -/
theorem quicAddrCompare_structure (a b : QUIC_ADDR) :
    ((a.si_family ≠ b.si_family ∨ a.sin_port ≠ b.sin_port) →
      QuicAddrCompare a b = false) ∧
    (a.si_family = b.si_family → a.sin_port = b.sin_port →
      QuicAddrCompare a b =
        if a.si_family = AF_INET then
          decide (∀ i : Fin 4, a.sin_addr i = b.sin_addr i)
        else
          decide (∀ i : Fin 16, a.sin6_addr i = b.sin6_addr i)) := by
  constructor
  · intro hc
    unfold QuicAddrCompare
    rw [if_pos hc]
  · intro hf hp
    unfold QuicAddrCompare
    rw [if_neg (by push_neg; exact ⟨hf, hp⟩)]
    unfold QuicAddrCompareIp
    rfl

/-- C5 witness: a port mismatch compares false; a matching pair reduces to
the IPv4 payload comparison. -/
theorem quicAddrCompare_structure_witness :
    (sampleV4.si_family ≠ sampleV4port.si_family ∨
      sampleV4.sin_port ≠ sampleV4port.sin_port) ∧
    QuicAddrCompare sampleV4 sampleV4port = false ∧
    QuicAddrCompare sampleV4 sampleV4var =
      (if sampleV4.si_family = AF_INET then
        decide (∀ i : Fin 4, sampleV4.sin_addr i = sampleV4var.sin_addr i)
      else
        decide (∀ i : Fin 16, sampleV4.sin6_addr i = sampleV4var.sin6_addr i)) :=
  ⟨by decide, (quicAddrCompare_structure sampleV4 sampleV4port).1 (by decide),
    (quicAddrCompare_structure sampleV4 sampleV4var).2 rfl rfl⟩

/-- C6 counterexample: an address with family tag 99 (neither AF_UNSPEC
nor AF_INET nor AF_INET6) and all-zero IPv6 payload makes QuicAddrIsWildCard
return true, though none of the three cases of the claimed iff holds. -/
theorem isWildCard_cex :
    QuicAddrIsWildCard invalidFamAddr = true ∧
    invalidFamAddr.si_family ≠ AF_UNSPEC ∧
    invalidFamAddr.si_family ≠ AF_INET ∧
    invalidFamAddr.si_family ≠ AF_INET6 := by
  decide

/-- C6 amended: for every address whose family tag is valid (AF_UNSPEC,
AF_INET or AF_INET6), QuicAddrIsWildCard is true iff the family is
AF_UNSPEC (payload irrelevant), or the family is AF_INET and the 4 IPv4
payload bytes are all zero, or the family is AF_INET6 and the 16 IPv6
payload bytes are all zero. -/
theorem isWildCard_iff (a : QUIC_ADDR) (hv : QuicAddrIsValid a = true) :
    QuicAddrIsWildCard a = true ↔
      (a.si_family = AF_UNSPEC ∨
       (a.si_family = AF_INET ∧ ∀ i : Fin 4, a.sin_addr i = 0) ∨
       (a.si_family = AF_INET6 ∧ ∀ i : Fin 16, a.sin6_addr i = 0)) := by
  unfold QuicAddrIsValid at hv
  rw [decide_eq_true_eq] at hv
  unfold QuicAddrIsWildCard
  rcases hv with h0 | h2 | h23
  · simp [h0, AF_UNSPEC, AF_INET, AF_INET6]
  · rw [h2]
    simp [AF_UNSPEC, AF_INET, AF_INET6]
  · rw [h23]
    simp [AF_UNSPEC, AF_INET, AF_INET6]

/-- C6 amended witness: the all-zero IPv6 sample address is a wildcard. -/
theorem isWildCard_iff_witness :
    QuicAddrIsValid sampleV6 = true ∧ QuicAddrIsWildCard sampleV6 = true :=
  ⟨by decide,
    (isWildCard_iff sampleV6 (by decide)).mpr (Or.inr (Or.inr ⟨rfl, fun i => rfl⟩))⟩

/-- C7: QuicAddrIsBoundExplicitly is true exactly when the IPv6 scope id
field is zero, for every address of any family, and its result depends on
no other field. -/
theorem isBoundExplicitly_iff (a : QUIC_ADDR) :
    (QuicAddrIsBoundExplicitly a = true ↔ a.sin6_scope_id = 0) ∧
    (∀ b : QUIC_ADDR, a.sin6_scope_id = b.sin6_scope_id →
      QuicAddrIsBoundExplicitly a = QuicAddrIsBoundExplicitly b) := by
  constructor
  · simp [QuicAddrIsBoundExplicitly]
  · intro b hb
    unfold QuicAddrIsBoundExplicitly
    rw [hb]

/-- C7 witness: the IPv4 sample (scope 0) is bound explicitly and agrees
with the IPv6 sample of equal scope id. -/
theorem isBoundExplicitly_iff_witness :
    QuicAddrIsBoundExplicitly sampleV4 = true ∧
    QuicAddrIsBoundExplicitly sampleV4 = QuicAddrIsBoundExplicitly sampleV6 :=
  ⟨(isBoundExplicitly_iff sampleV4).1.mpr rfl,
    (isBoundExplicitly_iff sampleV4).2 sampleV6 rfl⟩

/-- C4 counterexample: the mapped pending value (STATUS_PENDING,
0x00000103) is a success-class code, so QUIC_FAILED is false on it (and on
the mapped continue value 0x00000104), refuting that every one of the 19
non-success mapped values satisfies Failed = true. -/
theorem status_pending_not_failed :
    QUIC_FAILED QUIC_STATUS_PENDING = false ∧
    QUIC_FAILED QUIC_STATUS_CONTINUE = false ∧
    QUIC_STATUS_PENDING ≠ QUIC_STATUS_SUCCESS ∧
    QUIC_STATUS_CONTINUE ≠ QUIC_STATUS_SUCCESS := by
  decide

/-- C4 amended: the mapped success, pending and continue values satisfy
Succeeded = true and Failed = false; each of the other 17 mapped values
(out-of-memory, invalid-parameter, invalid-state, not-supported,
not-found, buffer-too-small, handshake-failure, aborted, address-in-use,
connection-timeout, connection-idle, unreachable, internal-error,
server-busy, protocol-error, version-negotiation-error, user-canceled)
satisfies Failed = true. -/
theorem status_classification :
    (QUIC_SUCCEEDED QUIC_STATUS_SUCCESS = true ∧ QUIC_FAILED QUIC_STATUS_SUCCESS = false) ∧
    (QUIC_SUCCEEDED QUIC_STATUS_PENDING = true ∧ QUIC_FAILED QUIC_STATUS_PENDING = false) ∧
    (QUIC_SUCCEEDED QUIC_STATUS_CONTINUE = true ∧ QUIC_FAILED QUIC_STATUS_CONTINUE = false) ∧
    QUIC_FAILED QUIC_STATUS_OUT_OF_MEMORY = true ∧
    QUIC_FAILED QUIC_STATUS_INVALID_PARAMETER = true ∧
    QUIC_FAILED QUIC_STATUS_INVALID_STATE = true ∧
    QUIC_FAILED QUIC_STATUS_NOT_SUPPORTED = true ∧
    QUIC_FAILED QUIC_STATUS_NOT_FOUND = true ∧
    QUIC_FAILED QUIC_STATUS_BUFFER_TOO_SMALL = true ∧
    QUIC_FAILED QUIC_STATUS_HANDSHAKE_FAILURE = true ∧
    QUIC_FAILED QUIC_STATUS_ABORTED = true ∧
    QUIC_FAILED QUIC_STATUS_ADDRESS_IN_USE = true ∧
    QUIC_FAILED QUIC_STATUS_CONNECTION_TIMEOUT = true ∧
    QUIC_FAILED QUIC_STATUS_CONNECTION_IDLE = true ∧
    QUIC_FAILED QUIC_STATUS_UNREACHABLE = true ∧
    QUIC_FAILED QUIC_STATUS_INTERNAL_ERROR = true ∧
    QUIC_FAILED QUIC_STATUS_SERVER_BUSY = true ∧
    QUIC_FAILED QUIC_STATUS_PROTOCOL_ERROR = true ∧
    QUIC_FAILED QUIC_STATUS_VER_NEG_ERROR = true ∧
    QUIC_FAILED QUIC_STATUS_USER_CANCELED = true := by
  decide

/-- C10: for every 32-bit status pattern c, QUIC_FAILED c is the boolean
negation of QUIC_SUCCEEDED c, and QUIC_SUCCEEDED c holds iff the signed
32-bit reading of c is non-negative, i.e. iff c is below 2^31; the mapped
pending and continue values satisfy Succeeded. -/
theorem failed_iff_not_succeeded (c : Nat) (hc : c < 4294967296) :
    QUIC_FAILED c = !(QUIC_SUCCEEDED c) ∧
    (QUIC_SUCCEEDED c = true ↔ 0 ≤ ntSigned c) ∧
    (QUIC_SUCCEEDED c = true ↔ c < 2147483648) ∧
    QUIC_SUCCEEDED QUIC_STATUS_PENDING = true ∧
    QUIC_SUCCEEDED QUIC_STATUS_CONTINUE = true := by
  refine ⟨rfl, by simp [QUIC_SUCCEEDED, NT_SUCCESS], ?_, by decide, by decide⟩
  unfold QUIC_SUCCEEDED NT_SUCCESS ntSigned
  by_cases h : c < 2147483648
  · rw [if_pos h]
    simp only [decide_eq_true_eq]
    constructor
    · intro _; exact h
    · intro _; exact_mod_cast Int.ofNat_nonneg c
  · rw [if_neg h]
    simp only [decide_eq_true_eq]
    constructor
    · intro habs
      exfalso
      omega
    · intro habs
      exact absurd habs h

/-- C10 witness: instantiated at the pending value 0x00000103. -/
theorem failed_iff_not_succeeded_witness :
    (259 : Nat) < 4294967296 ∧
    (QUIC_FAILED 259 = !(QUIC_SUCCEEDED 259) ∧
      (QUIC_SUCCEEDED 259 = true ↔ 0 ≤ ntSigned 259) ∧
      (QUIC_SUCCEEDED 259 = true ↔ (259 : Nat) < 2147483648) ∧
      QUIC_SUCCEEDED QUIC_STATUS_PENDING = true ∧
      QUIC_SUCCEEDED QUIC_STATUS_CONTINUE = true) :=
  ⟨by norm_num, failed_iff_not_succeeded 259 (by norm_num)⟩

end MsQuic
